import Mathlib

/-!
Shallow embedding of the matt-gpt-slack-app bridge (src/app.js) and proofs of
the frozen claims about it.  JavaScript strings are modelled as Lean `String`,
JavaScript `null`/`undefined` as `Option`, and JavaScript truthiness of a
string value as non-emptiness.  The effectful Slack/axios calls are modelled
through an explicit oracle record and a trace of issued effects.
-/

namespace MattGPT

/-! ## JavaScript string primitives used by app.js -/

/-- JS truthiness of a string: the empty string is falsy, all others truthy. -/
def strTruthy (s : String) : Bool := !s.data.isEmpty

/-- JS truthiness of a possibly-absent string (`null`/`undefined` are falsy). -/
def truthyOptStr : Option String → Bool
  | none => false
  | some s => strTruthy s

/-- `a || b` on JS strings where `a` may be `null`/`undefined`, result a string. -/
def jsOrStr (a : Option String) (b : String) : String :=
  match a with
  | some s => if strTruthy s then s else b
  | none => b

/-- `a || b` where both operands may be `null`/`undefined`. -/
def jsOrOpt (a b : Option String) : Option String :=
  if truthyOptStr a then a else b

/-- Stringification performed by a JS template literal on a value that is
either a string or `null` (`` `conv_${x}` `` turns `null` into `"null"`). -/
def jsTemplateOpt : Option String → String
  | none => "null"
  | some s => s

/-- Character-list prefix test, the semantics of JS `String.startsWith`. -/
def charsPrefixOf : List Char → List Char → Bool
  | [], _ => true
  | _ :: _, [] => false
  | a :: as, b :: bs => a == b && charsPrefixOf as bs

/-- JS `s.startsWith (p)`. -/
def strStartsWith (s p : String) : Bool := charsPrefixOf p.data s.data

/-- Substring occurrence, the semantics of JS `String.includes`. -/
def charsContains : List Char → List Char → Bool
  | [], pat => pat.isEmpty
  | c :: rest, pat => charsPrefixOf pat (c :: rest) || charsContains rest pat

/-- JS `s.includes (pat)`. -/
def containsSubstr (s pat : String) : Bool := charsContains s.data pat.data

/-- Remove the first occurrence of `pat`, the semantics of JS
`s.replace (pat, "")` with a plain-string pattern. -/
def replaceFirstChars (pat : List Char) : List Char → List Char
  | [] => []
  | c :: rest =>
    if charsPrefixOf pat (c :: rest) then List.drop pat.length (c :: rest)
    else c :: replaceFirstChars pat rest

/-- JS `s.replace (pat, "")`: drop the first occurrence of `pat` from `s`. -/
def replaceFirst (s pat : String) : String := ⟨replaceFirstChars pat.data s.data⟩

/-- JS `text && text.includes (pat)` as a Bool. -/
def jsIncludes (t : Option String) (pat : String) : Bool :=
  match t with
  | some s => strTruthy s && containsSubstr s pat
  | none => false

/-- ASCII lower-casing applied character-wise, the behaviour of JS
`toLowerCase` on the ASCII texts this program compares. -/
def jsToLowerCase (s : String) : String := ⟨s.data.map Char.toLower⟩

/-- The whitespace class of the JS regex `\s` and of `String.trim`, restricted
to the ASCII characters that occur here. -/
def jsIsSpace (c : Char) : Bool :=
  c == ' ' || c == '\t' || c == '\n' || c == '\r' || c == '\x0b' || c == '\x0c'

/-- JS `String.trim`: strip whitespace from both ends. -/
def jsTrim (cs : List Char) : List Char :=
  ((cs.dropWhile jsIsSpace).reverse.dropWhile jsIsSpace).reverse

/-! ## Data model: Slack messages, blocks, payloads, backend values -/

/-- The inner `text` object of a section block. -/
structure BlockText where
  type : String
  text : String
deriving DecidableEq

/-- A Slack message block; `block_id` is the hidden channel used by the codec. -/
structure Block where
  type : String
  block_id : Option String
  text : Option BlockText
deriving DecidableEq

/-- An inbound Slack message or event, with the fields app.js reads.  Absent
JS properties are `none`. -/
structure SlackMessage where
  channel : String
  user : Option String
  text : Option String
  ts : String
  thread_ts : Option String
  bot_id : Option String
  bot_profile : Option String
  subtype : Option String
  blocks : Option (List Block)
deriving DecidableEq

/-- The outbound payload built by `createMessageWithConversationId`. -/
structure MessagePayload where
  text : String
  thread_ts : String
  blocks : List Block
  unfurl_links : Bool
  unfurl_media : Bool
deriving DecidableEq

/-- The argument record of a `conversations.replies` call. -/
structure RepliesRequest where
  channel : String
  ts : String
  limit : Nat
deriving DecidableEq

/-- A parsed matt-gpt backend response body (the fields app.js uses). -/
structure BackendResponse where
  response : String
  conversation_id : Option String
deriving DecidableEq

/-- The per-attempt axios request configuration of the backend call
(src/app.js lines 35-41). -/
structure MattGPTRequestConfig where
  timeoutMs : Nat
deriving DecidableEq

/-- The request configuration built for every backend attempt: a 30-second
timeout. -/
def mattGPTRequestConfig : MattGPTRequestConfig := ⟨30000⟩

/-! ## Conversation codec (src/app.js lines 102-134) -/

/-- The scan of `extractConversationId` over the blocks array: the first block
whose truthy `block_id` starts with `conv_` yields that id with the first
occurrence of `conv_` removed. -/
def extractFromBlocks : List Block → Option String
  | [] => none
  | b :: rest =>
    match b.block_id with
    | some bid =>
      if strTruthy bid && strStartsWith bid "conv_" then
        some (replaceFirst bid "conv_")
      else extractFromBlocks rest
    | none => extractFromBlocks rest

/-- `extractConversationId (message)` (src/app.js lines 102-114). -/
def extractConversationId (m : SlackMessage) : Option String :=
  match m.blocks with
  | some blocks => extractFromBlocks blocks
  | none => none

/-- `createMessageWithConversationId (text, conversationId, threadTs)`
(src/app.js lines 116-134): one section block whose `block_id` is
`conv_` followed by the (template-stringified) conversation id. -/
def createMessageWithConversationId (text : String) (conversationId : Option String)
    (threadTs : String) : MessagePayload :=
  { text := text
    thread_ts := threadTs
    blocks := [
      { type := "section"
        block_id := some ("conv_" ++ jsTemplateOpt conversationId)
        text := some { type := "mrkdwn", text := text } } ]
    unfurl_links := false
    unfurl_media := false }

/-- The embedded conversation id of an outbound payload, as the decoder would
recover it from the payload's blocks. -/
def embeddedId (p : MessagePayload) : Option String := extractFromBlocks p.blocks

/-- A payload as it comes back from the platform's store/fetch cycle: a bot
message carrying the payload's blocks. -/
def asReceivedMessage (bot : String) (p : MessagePayload) : SlackMessage :=
  { channel := ""
    user := none
    text := some p.text
    ts := ""
    thread_ts := some p.thread_ts
    bot_id := some bot
    bot_profile := none
    subtype := none
    blocks := some p.blocks }

/-! ### Codec helper lemmas -/

theorem string_mk_data (s : String) : String.mk s.data = s := by
  cases s
  rfl

theorem conv_data (I : String) :
    ("conv_" ++ I).data = 'c' :: 'o' :: 'n' :: 'v' :: '_' :: I.data := by
  rw [String.data_append]
  rfl

theorem strTruthy_conv (I : String) : strTruthy ("conv_" ++ I) = true := by
  simp [strTruthy, conv_data]

theorem startsWith_conv (I : String) : strStartsWith ("conv_" ++ I) "conv_" = true := by
  simp only [strStartsWith, conv_data]
  rfl

theorem replaceFirst_conv (I : String) : replaceFirst ("conv_" ++ I) "conv_" = I := by
  simp only [replaceFirst, conv_data]
  show String.mk (replaceFirstChars ['c', 'o', 'n', 'v', '_']
    ('c' :: 'o' :: 'n' :: 'v' :: '_' :: I.data)) = I
  rw [show replaceFirstChars ['c', 'o', 'n', 'v', '_']
      ('c' :: 'o' :: 'n' :: 'v' :: '_' :: I.data) = I.data from rfl]

/-- Decoding the head block written by the encoder recovers the raw id. -/
theorem extractFromBlocks_conv (I : String) (rest : List Block) (ty : String)
    (txt : Option BlockText) :
    extractFromBlocks
      ({ type := ty, block_id := some ("conv_" ++ I), text := txt } :: rest) = some I := by
  simp [extractFromBlocks, strTruthy_conv, startsWith_conv, replaceFirst_conv]

/-- C3: codec round-trip law.  For every reply text and every conversation id
`I`, decoding the message built by `createMessageWithConversationId (text, I,
threadTs)` — after the platform's store/fetch cycle — returns exactly `I`. -/
theorem c3_codec_roundtrip (text I threadTs bot : String) :
    extractConversationId
      (asReceivedMessage bot (createMessageWithConversationId text (some I) threadTs))
      = some I := by
  show extractFromBlocks _ = some I
  exact extractFromBlocks_conv I [] "section" (some { type := "mrkdwn", text := text })

/-! ## Backend client with retry (src/app.js lines 20-99) -/

/-- Outcome of `callMattGPTWithRetry`: the returned response body, the thrown
error message, or the JS fall-through (`undefined`) when the loop never runs
(`maxRetries < 1`). -/
inductive RetryOutcome where
  | success (r : BackendResponse)
  | failure (msg : String)
  | fellThrough
deriving DecidableEq

/-- One iteration of the retry `for` loop.  `fuel` is the number of loop
iterations still allowed (`maxRetries - attempt + 1`); the second component
collects the induced back-off delays in milliseconds, each recorded before
the following attempt, exactly as the `setTimeout` at line 96. -/
def retryAux (client : Nat → Except String BackendResponse) (maxRetries : Nat) :
    Nat → Nat → RetryOutcome × List Nat
  | _, 0 => (.fellThrough, [])
  | attempt, fuel + 1 =>
    match client attempt with
    | .ok r => (.success r, [])
    | .error e =>
      if attempt == maxRetries then
        (.failure ("Matt-GPT API failed after " ++ toString maxRetries
          ++ " attempts: " ++ e), [])
      else
        let next := retryAux client maxRetries (attempt + 1) fuel
        (next.1, (2 ^ attempt * 1000) :: next.2)

/-- `callMattGPTWithRetry (message, context, maxRetries, logger)`: attempts run
from 1 to `maxRetries`; the effectful axios call of attempt `n` is abstracted
as `client n`. -/
def callMattGPTWithRetry (client : Nat → Except String BackendResponse)
    (maxRetries : Nat) : RetryOutcome × List Nat :=
  retryAux client maxRetries 1 maxRetries

/-! ## Message-text cleaning (src/app.js lines 216-224) and side-note opt-out -/

/-- Character class `[A-Z0-9]` of the mention regex. -/
def isMentionIdChar (c : Char) : Bool :=
  ('A' ≤ c && c ≤ 'Z') || ('0' ≤ c && c ≤ '9')

/-- The anchored mention regex
`^<@[UW][A-Z0-9]+(?:\|[^>]+)?>\s*` applied once at the start of the text
(the `^` anchor lets the global replace fire at most once); returns the text
with the matched mention removed, or the text unchanged when it does not
match. -/
def stripLeadingMention (cs : List Char) : List Char :=
  match cs with
  | '<' :: '@' :: u :: rest =>
    if u == 'U' || u == 'W' then
      match List.span isMentionIdChar rest with
      | (ids, rest2) =>
        if ids.isEmpty then cs
        else
          match rest2 with
          | '>' :: rest3 => rest3.dropWhile jsIsSpace
          | '|' :: rest3 =>
            (match List.span (fun c => c != '>') rest3 with
            | (nm, rest4) =>
              if nm.isEmpty then cs
              else
                match rest4 with
                | '>' :: rest5 => rest5.dropWhile jsIsSpace
                | _ => cs)
          | _ => cs
    else cs
  | _ => cs

/-- `cleanMessageText (text)`: falsy input is returned as-is; otherwise the
leading mention token is stripped and the result trimmed. -/
def cleanMessageText (text : Option String) : Option String :=
  match text with
  | none => none
  | some s => if strTruthy s then some ⟨jsTrim (stripLeadingMention s.data)⟩ else some s

/-- The side-note opt-out check of `processMessageRequest` (src/app.js lines
384-393): the cleaned text is truthy and its lower-casing starts with one of
the three aside markers. -/
def isSideNote (cleanedText : Option String) : Bool :=
  match cleanedText with
  | none => false
  | some s =>
    strTruthy s &&
      (strStartsWith (jsToLowerCase s) "side note"
        || strStartsWith (jsToLowerCase s) "sidenote"
        || strStartsWith (jsToLowerCase s) "side-note")

/-! ## History reconstructor (src/app.js lines 434-468) -/

/-- A history message counts as carrying an embedded id when it is
bot-authored and its decoded conversation id is truthy — exactly the pair of
checks the orchestrator's scan applies. -/
def embedsTruthyId (m : SlackMessage) : Bool :=
  truthyOptStr m.bot_id && truthyOptStr (extractConversationId m)

/-- The scan of the (already reversed) thread history: the first bot-authored
message whose decoded conversation id is truthy wins (the `break` at line
455). -/
def scanForConvId : List SlackMessage → Option String
  | [] => none
  | m :: rest =>
    if truthyOptStr m.bot_id then
      match extractConversationId m with
      | some cid => if strTruthy cid then some cid else scanForConvId rest
      | none => scanForConvId rest
    else scanForConvId rest

/-- The conversation-location step: fetch up to the 50 most recent thread
replies, scan them newest-to-oldest (Slack returns them oldest-first; the
code reverses), and absorb a failed fetch into `none` (src/app.js lines
436-465). -/
def locateConversation (fetchReplies : RepliesRequest → Except String (List SlackMessage))
    (channel thread_ts : String) : Option String :=
  match fetchReplies ⟨channel, thread_ts, 50⟩ with
  | .ok history => scanForConvId history.reverse
  | .error _ => none

/-! ## Orchestrator (src/app.js lines 227-374 and 377-561) -/

/-- The context object passed to the backend (src/app.js lines 480-492);
`conversation_id` is set only when a located id is truthy. -/
structure ApiContext where
  thread_ts : String
  channel : String
  user_id : Option String
  conversation_id : Option String
deriving DecidableEq

/-- An issued call to Slack or to the backend.  `say` posts a message
(optionally threaded); `backendCall` is the entry into
`callMattGPTWithRetry`; `chatUpdate` is the `chat.update` edit of the
placeholder, with the call's success recorded. -/
inductive Effect where
  | say (text : String) (thread_ts : Option String)
  | backendCall (message : Option String) (ctx : ApiContext)
  | chatUpdate (channel : String) (ts : String) (payload : MessagePayload) (ok : Bool)
deriving DecidableEq

/-- The ambient configuration read from the environment. -/
structure Env where
  monitoredChannel : Option String
  mattGptBearerToken : Option String
  openrouterApiKey : Option String
  slackBotUserId : Option String

/-- The effectful collaborators of one turn: the thread-history fetcher, the
backend client (per message, context and attempt number), the timestamp the
platform assigns to the posted placeholder, and the outcome of the
`chat.update` call. -/
structure Oracle where
  fetchReplies : RepliesRequest → Except String (List SlackMessage)
  client : Option String → ApiContext → Nat → Except String BackendResponse
  thinkingTs : String
  updateResult : Except String Unit

def thinkingText : String := "🤔 Thinking..."

def bearerMissingText : String :=
  "❌ Matt-GPT API is not configured. Please set MATT_GPT_BEARER_TOKEN environment variable."

def openrouterMissingText : String :=
  "❌ OpenRouter API key is not configured. Please set OPENROUTER_API_KEY environment variable."

/-- The catch-block classification of a failure into a user-facing apology
(src/app.js lines 540-549): best-effort substring matching. -/
def classifyErrorMessage (msg : String) : String :=
  if containsSubstr msg "timeout" then "⏰ Request timed out. Please try again."
  else if containsSubstr msg "rate" then
    "🚦 Service is busy. Please wait a moment and try again."
  else if containsSubstr msg "API" then
    "🤖 Matt-GPT is temporarily unavailable. Please try again later."
  else "❌ Something went wrong. Please try again."

/-- `thread_ts || ts`: the thread anchor every outbound message of the turn
uses. -/
def anchorOf (m : SlackMessage) : String := jsOrStr m.thread_ts m.ts

/-- `thread_ts && thread_ts !== ts`: the message is a reply inside a thread. -/
def isThreadReply (m : SlackMessage) : Bool :=
  match m.thread_ts with
  | some t => strTruthy t && t != m.ts
  | none => false

/-- The `conversationId` variable of `processMessageRequest`: located from
thread history for thread replies, `null` otherwise (src/app.js lines
431-468). -/
def locatedIdOf (oracle : Oracle) (m : SlackMessage) : Option String :=
  if isThreadReply m then
    locateConversation oracle.fetchReplies m.channel (jsOrStr m.thread_ts "")
  else none

/-- The `apiContext` object built at src/app.js lines 480-492. -/
def apiContextOf (oracle : Oracle) (m : SlackMessage) : ApiContext :=
  { thread_ts := anchorOf m
    channel := m.channel
    user_id := m.user
    conversation_id :=
      if truthyOptStr (locatedIdOf oracle m) then locatedIdOf oracle m else none }

/-- `processMessageRequest (message, say, client, logger)` (src/app.js lines
377-561) as the list of calls it issues.  The side-note opt-out returns
before any effect; the configuration checks post an error and stop; otherwise
the placeholder is posted, the backend called with retries, and on success
the placeholder is edited in place with the composed reply — the catch block
posts a classified apology as a separate threaded message. -/
def processMessageRequest (env : Env) (oracle : Oracle) (m : SlackMessage) :
    List Effect :=
  let cleanedText := cleanMessageText m.text
  if isSideNote cleanedText then []
  else if !truthyOptStr env.mattGptBearerToken then
    [.say bearerMissingText (some (anchorOf m))]
  else if !truthyOptStr env.openrouterApiKey then
    [.say openrouterMissingText (some (anchorOf m))]
  else
    let ctx := apiContextOf oracle m
    let pre : List Effect :=
      [.say thinkingText (some (anchorOf m)), .backendCall cleanedText ctx]
    match (callMattGPTWithRetry (oracle.client cleanedText ctx) 3).1 with
    | .success resp =>
      let payload := createMessageWithConversationId resp.response
        (jsOrOpt resp.conversation_id (locatedIdOf oracle m)) (anchorOf m)
      match oracle.updateResult with
      | .ok _ => pre ++ [.chatUpdate m.channel oracle.thinkingTs payload true]
      | .error e => pre ++ [.chatUpdate m.channel oracle.thinkingTs payload false,
          .say (classifyErrorMessage e) (some (anchorOf m))]
    | .failure msg => pre ++ [.say (classifyErrorMessage msg) (some (anchorOf m))]
    | .fellThrough => pre ++
        [.say (classifyErrorMessage "Cannot read properties of undefined")
          (some (anchorOf m))]

/-- `process.env.SLACK_BOT_USER_ID || 'U09BR46BEV8'` (src/app.js line 305). -/
def botUserId (env : Env) : String := jsOrStr env.slackBotUserId "U09BR46BEV8"

/-- `isDMChannel` (src/app.js lines 206-208). -/
def isDMChannel (channelId : String) : Bool := strStartsWith channelId "D"

/-- `isProbablyGroupDMOrPrivateChannel` (src/app.js lines 211-213). -/
def isProbablyGroupDMOrPrivateChannel (channelId : String) : Bool :=
  strStartsWith channelId "G"

def dmRedirectText (monitored : String) : String :=
  "👋 Hi there! I only respond to messages in <#" ++ monitored
    ++ ">. Please write your message there and I'll respond in the thread!"

def dmGenericRedirectText : String :=
  "👋 Hi there! I only respond to messages in channels, not DMs. Please write your message in a channel where I'm present and I'll respond in the thread!"

/-- `message.subtype` blocks the message: a truthy subtype other than
`thread_broadcast` (src/app.js lines 238-245). -/
def subtypeBlocks (m : SlackMessage) : Bool :=
  match m.subtype with
  | some st => strTruthy st && st != "thread_broadcast"
  | none => false

/-- The `app.message` handler (src/app.js lines 227-343): bot filters, DM and
group-DM handling, channel filter, then the `shouldRespond` admission logic
for unmentioned thread replies. -/
def appMessageHandler (env : Env) (oracle : Oracle) (m : SlackMessage) :
    List Effect :=
  if truthyOptStr m.bot_id then []
  else if subtypeBlocks m then []
  else if truthyOptStr m.bot_profile then []
  else if m.user == some "USLACKBOT" then []
  else if isDMChannel m.channel then
    if truthyOptStr env.monitoredChannel then
      [.say (dmRedirectText (jsOrStr env.monitoredChannel "")) none]
    else
      [.say dmGenericRedirectText none]
  else if isProbablyGroupDMOrPrivateChannel m.channel
      && (truthyOptStr env.monitoredChannel
        && (env.monitoredChannel != some m.channel)) then []
  else if truthyOptStr env.monitoredChannel
      && (env.monitoredChannel != some m.channel) then []
  else if jsIncludes m.text ("<@" ++ botUserId env ++ ">") then []
  else if isThreadReply m then
    match oracle.fetchReplies ⟨m.channel, jsOrStr m.thread_ts "", 50⟩ with
    | .ok history =>
      if history.any (fun msg => truthyOptStr msg.bot_id) then
        processMessageRequest env oracle m
      else []
    | .error _ => []
  else []

/-- The mock message the `app_mention` handler builds from the event
(src/app.js lines 361-368). -/
def mockMessageOf (ev : SlackMessage) : SlackMessage :=
  { channel := ev.channel
    user := ev.user
    text := ev.text
    ts := ev.ts
    thread_ts := ev.thread_ts
    bot_id := none
    bot_profile := none
    subtype := none
    blocks := none }

/-- The `app_mention` handler (src/app.js lines 346-374): channel filter, then
delegate to `processMessageRequest` on the mock message. -/
def appMentionHandler (env : Env) (oracle : Oracle) (ev : SlackMessage) :
    List Effect :=
  if truthyOptStr env.monitoredChannel && (env.monitoredChannel != some ev.channel) then
    []
  else processMessageRequest env oracle (mockMessageOf ev)

/-- The payloads of the `chat.update` calls in a trace. -/
def composedPayloads (tr : List Effect) : List MessagePayload :=
  tr.filterMap fun e =>
    match e with
    | .chatUpdate _ _ p _ => some p
    | _ => none

/-- Whether a trace posts the transient placeholder. -/
def placeholderPostedIn (tr : List Effect) : Bool :=
  tr.any fun e =>
    match e with
    | .say t _ => t == thinkingText
    | _ => false

/-- Whether a trace resolves the placeholder posted at timestamp `ts`: a
successful in-place edit of that message (the code has no delete call at
all). -/
def placeholderResolvedIn (tr : List Effect) (ts : String) : Bool :=
  tr.any fun e =>
    match e with
    | .chatUpdate _ uts _ ok => uts == ts && ok
    | _ => false

/-! ## Lemmas on the history scan -/

/-- A history with no bot-authored message scans to `none`. -/
theorem scanForConvId_no_bot (l : List SlackMessage)
    (h : ∀ m ∈ l, truthyOptStr m.bot_id = false) : scanForConvId l = none := by
  induction l with
  | nil => rfl
  | cons a t ih =>
    have ha := h a (List.mem_cons_self a t)
    have ht := fun m hm => h m (List.mem_cons_of_mem a hm)
    simp [scanForConvId, ha, ih ht]

/-- Messages that neither are bot-authored with a truthy embedded id are
skipped by the scan. -/
theorem scanForConvId_append_skip (l1 l2 : List SlackMessage)
    (h : ∀ m ∈ l1, embedsTruthyId m = false) :
    scanForConvId (l1 ++ l2) = scanForConvId l2 := by
  induction l1 with
  | nil => rfl
  | cons a t ih =>
    have ha := h a (List.mem_cons_self a t)
    have ht := fun m hm => h m (List.mem_cons_of_mem a hm)
    simp only [embedsTruthyId, Bool.and_eq_false_iff] at ha
    rcases ha with hb | he
    · simp [scanForConvId, hb, ih ht]
    · cases hb : truthyOptStr a.bot_id with
      | false => simp [scanForConvId, hb, ih ht]
      | true =>
        cases hx : extractConversationId a with
        | none => simp [scanForConvId, hb, hx, ih ht]
        | some c =>
          have hc : strTruthy c = false := by
            rw [hx] at he
            simpa [truthyOptStr] using he
          simp [scanForConvId, hb, hx, hc, ih ht]

/-- The scan stops at a head that is bot-authored with a truthy embedded id. -/
theorem scanForConvId_hit (msg : SlackMessage) (rest : List SlackMessage) (I : String)
    (hb : truthyOptStr msg.bot_id = true) (he : extractConversationId msg = some I)
    (hI : strTruthy I = true) : scanForConvId (msg :: rest) = some I := by
  simp [scanForConvId, hb, he, hI]

/-- When some message embeds a truthy id and every truthy id embedded by a
bot message equals `I`, the scan returns `I`. -/
theorem scanForConvId_all (l : List SlackMessage) (I : String)
    (hex : ∃ m ∈ l, embedsTruthyId m = true)
    (hall : ∀ m ∈ l, truthyOptStr m.bot_id = true →
      ∀ c, extractConversationId m = some c → strTruthy c = true → c = I) :
    scanForConvId l = some I := by
  induction l with
  | nil => simp at hex
  | cons a t ih =>
    by_cases hb : truthyOptStr a.bot_id = true
    · cases hx : extractConversationId a with
      | some c =>
        by_cases hc : strTruthy c = true
        · have hcI : c = I := hall a (List.mem_cons_self a t) hb c hx hc
          rw [← hcI]
          exact scanForConvId_hit a t c hb hx hc
        · have hcf : strTruthy c = false := by
            cases hcv : strTruthy c
            · rfl
            · exact absurd hcv hc
          obtain ⟨m, hm, hmT⟩ := hex
          rcases List.mem_cons.mp hm with hma | hmt
          · subst hma
            simp [embedsTruthyId, hb, hx, truthyOptStr, hcf] at hmT
          · have ht : scanForConvId t = some I :=
              ih ⟨m, hmt, hmT⟩ (fun m hm => hall m (List.mem_cons_of_mem a hm))
            simp [scanForConvId, hb, hx, hcf, ht]
      | none =>
        obtain ⟨m, hm, hmT⟩ := hex
        rcases List.mem_cons.mp hm with hma | hmt
        · subst hma
          simp [embedsTruthyId, hb, hx, truthyOptStr] at hmT
        · have ht : scanForConvId t = some I :=
            ih ⟨m, hmt, hmT⟩ (fun m hm => hall m (List.mem_cons_of_mem a hm))
          simp [scanForConvId, hb, hx, ht]
    · have hbf : truthyOptStr a.bot_id = false := by
        cases hbv : truthyOptStr a.bot_id
        · rfl
        · exact absurd hbv hb
      obtain ⟨m, hm, hmT⟩ := hex
      rcases List.mem_cons.mp hm with hma | hmt
      · subst hma
        simp [embedsTruthyId, hbf] at hmT
      · have ht : scanForConvId t = some I :=
          ih ⟨m, hmt, hmT⟩ (fun m hm => hall m (List.mem_cons_of_mem a hm))
        simp [scanForConvId, hbf, ht]

/-! ## C4: conversation location -/

/-- Every message of the window fails the scan's bot-plus-truthy-id test when
each bot-authored message decodes to no truthy id. -/
theorem embedsTruthyId_false_of_no_embed (l : List SlackMessage)
    (h : ∀ m ∈ l, truthyOptStr m.bot_id = true →
      truthyOptStr (extractConversationId m) = false) :
    ∀ m ∈ l, embedsTruthyId m = false := by
  intro m hm
  cases hbv : truthyOptStr m.bot_id with
  | false => simp [embedsTruthyId, hbv]
  | true => simp [embedsTruthyId, hbv, h m hm hbv]

/-- A window in which no message passes the scan's test scans to `none`. -/
theorem scanForConvId_none (l : List SlackMessage)
    (h : ∀ m ∈ l, embedsTruthyId m = false) : scanForConvId l = none := by
  have := scanForConvId_append_skip l [] h
  simpa using this

/-- C4: `locateConversation` consults only the fetcher's answer to the
limit-50 request for the thread (so it reads at most the 50 messages the
platform returns for that window); a failed fetch yields `none`; a window in
which no bot-authored message embeds a (truthy) id — in particular any
window, bot messages included, whose bot posts decode to no id — yields
`none`; a history with no bot-authored message at all yields `none`; and on
a successful fetch it returns the decoded id of the most recent bot-authored
message embedding a truthy id (the history arrives oldest-first and is
scanned reversed). -/
theorem c4_locateConversation :
    (∀ (f g : RepliesRequest → Except String (List SlackMessage)) (c t : String),
      f ⟨c, t, 50⟩ = g ⟨c, t, 50⟩ → locateConversation f c t = locateConversation g c t)
    ∧ (∀ (f : RepliesRequest → Except String (List SlackMessage)) (c t e : String),
      f ⟨c, t, 50⟩ = .error e → locateConversation f c t = none)
    ∧ (∀ (f : RepliesRequest → Except String (List SlackMessage)) (c t : String)
        (h : List SlackMessage), f ⟨c, t, 50⟩ = .ok h →
      (∀ m ∈ h, truthyOptStr m.bot_id = true →
        truthyOptStr (extractConversationId m) = false) →
      locateConversation f c t = none)
    ∧ (∀ (f : RepliesRequest → Except String (List SlackMessage)) (c t : String)
        (h : List SlackMessage), f ⟨c, t, 50⟩ = .ok h →
      (∀ m ∈ h, truthyOptStr m.bot_id = false) → locateConversation f c t = none)
    ∧ (∀ (f : RepliesRequest → Except String (List SlackMessage)) (c t : String)
        (h pre post : List SlackMessage) (msg : SlackMessage) (I : String),
      f ⟨c, t, 50⟩ = .ok h → h = pre ++ msg :: post →
      truthyOptStr msg.bot_id = true → extractConversationId msg = some I →
      strTruthy I = true →
      (∀ m' ∈ post, truthyOptStr m'.bot_id = true →
        truthyOptStr (extractConversationId m') = false) →
      locateConversation f c t = some I) := by
  refine ⟨?_, ?_, ?_, ?_, ?_⟩
  · intro f g c t hfg
    simp only [locateConversation, hfg]
  · intro f c t e hf
    simp [locateConversation, hf]
  · intro f c t h hf hne
    have hall : ∀ m ∈ h.reverse, embedsTruthyId m = false :=
      embedsTruthyId_false_of_no_embed h.reverse
        (fun m hm => hne m (List.mem_reverse.mp hm))
    have : scanForConvId h.reverse = none := scanForConvId_none h.reverse hall
    simp [locateConversation, hf, this]
  · intro f c t h hf hnb
    have : scanForConvId h.reverse = none :=
      scanForConvId_no_bot h.reverse (fun m hm => hnb m (List.mem_reverse.mp hm))
    simp [locateConversation, hf, this]
  · intro f c t h pre post msg I hf hsplit hb he hI hpost
    have hskip : ∀ m' ∈ post.reverse, embedsTruthyId m' = false :=
      embedsTruthyId_false_of_no_embed post.reverse
        (fun m' hm' => hpost m' (List.mem_reverse.mp hm'))
    have hrev : h.reverse = post.reverse ++ msg :: pre.reverse := by
      simp [hsplit]
    have hscan : scanForConvId h.reverse = some I := by
      rw [hrev, scanForConvId_append_skip post.reverse (msg :: pre.reverse) hskip]
      exact scanForConvId_hit msg pre.reverse I hb he hI
    simp [locateConversation, hf, hscan]

/-- A thread whose window holds a human message and a bot-authored post with
no blocks (an apology or placeholder, embedding no id):
`locateConversation` returns `none`, through `c4_locateConversation`. -/
theorem c4_witness :
    locateConversation
      (fun _ => .ok [⟨"C1", some "U1", some "hi", "100.0", some "100.0",
        none, none, none, none⟩,
        ⟨"C1", none, some "🤔 Thinking...", "101.0", some "100.0",
          some "B07", none, none, none⟩]) "C1" "100.0" = none :=
  c4_locateConversation.2.2.1
    (fun _ => .ok [⟨"C1", some "U1", some "hi", "100.0", some "100.0",
      none, none, none, none⟩,
      ⟨"C1", none, some "🤔 Thinking...", "101.0", some "100.0",
        some "B07", none, none, none⟩]) "C1" "100.0"
    [⟨"C1", some "U1", some "hi", "100.0", some "100.0", none, none, none, none⟩,
      ⟨"C1", none, some "🤔 Thinking...", "101.0", some "100.0",
        some "B07", none, none, none⟩]
    rfl (by decide)

/-! ## C5: backend retry policy -/

/-- C5: the retry policy at `maxRetries = 3`.  Every attempt's axios
configuration carries the independent 30000 ms timeout; a first-attempt
success returns at once with no delay; a failure of attempt `k < 3` induces a
back-off of `2 ^ k * 1000` ms before attempt `k + 1`; and after the third
failure the error naming the attempt count and the last cause is raised with
no further delay — in particular failing on attempts 1 and 2 and succeeding
on attempt 3 yields the response after exactly the delays 2000 ms and
4000 ms. -/
theorem c5_retry_policy :
    mattGPTRequestConfig.timeoutMs = 30000
    ∧ (∀ (client : Nat → Except String BackendResponse) (r : BackendResponse),
      client 1 = .ok r → callMattGPTWithRetry client 3 = (.success r, []))
    ∧ (∀ (client : Nat → Except String BackendResponse) (e1 : String) (r : BackendResponse),
      client 1 = .error e1 → client 2 = .ok r →
      callMattGPTWithRetry client 3 = (.success r, [2000]))
    ∧ (∀ (client : Nat → Except String BackendResponse) (e1 e2 : String) (r : BackendResponse),
      client 1 = .error e1 → client 2 = .error e2 → client 3 = .ok r →
      callMattGPTWithRetry client 3 = (.success r, [2000, 4000]))
    ∧ (∀ (client : Nat → Except String BackendResponse) (e1 e2 e3 : String),
      client 1 = .error e1 → client 2 = .error e2 → client 3 = .error e3 →
      callMattGPTWithRetry client 3 =
        (.failure ("Matt-GPT API failed after 3 attempts: " ++ e3), [2000, 4000])) := by
  refine ⟨rfl, ?_, ?_, ?_, ?_⟩
  · intro client r h1
    simp [callMattGPTWithRetry, retryAux, h1]
  · intro client e1 r h1 h2
    simp [callMattGPTWithRetry, retryAux, h1, h2]
  · intro client e1 e2 r h1 h2 h3
    simp [callMattGPTWithRetry, retryAux, h1, h2, h3]
  · intro client e1 e2 e3 h1 h2 h3
    have hmsg : ("Matt-GPT API failed after " ++ toString (3 : Nat) ++ " attempts: " ++ e3)
        = ("Matt-GPT API failed after 3 attempts: " ++ e3) := by
      rw [show ("Matt-GPT API failed after " ++ toString (3 : Nat) ++ " attempts: ")
        = "Matt-GPT API failed after 3 attempts: " from rfl]
    simp [callMattGPTWithRetry, retryAux, h1, h2, h3, hmsg]

/-- A client failing on attempts 1 and 2 and succeeding on attempt 3: the
successful response is returned after delays 2000 ms and 4000 ms, through
`c5_retry_policy`. -/
theorem c5_witness :
    callMattGPTWithRetry
      (fun n => match n with
        | 1 => .error "boom1"
        | 2 => .error "boom2"
        | _ => .ok ⟨"r", none⟩) 3
      = (.success ⟨"r", none⟩, [2000, 4000]) :=
  c5_retry_policy.2.2.2.1
    (fun n => match n with
      | 1 => .error "boom1"
      | 2 => .error "boom2"
      | _ => .ok ⟨"r", none⟩)
    "boom1" "boom2" ⟨"r", none⟩ rfl rfl rfl

/-! ## C9: side-note opt-out -/

/-- C9: whenever the mention-stripped text of a message handed to
`processMessageRequest` starts (case-insensitively) with one of the aside
markers, processing stops with no effect at all — no placeholder is posted
and the backend is never called. -/
theorem c9_side_note_opt_out (env : Env) (oracle : Oracle) (m : SlackMessage)
    (h : isSideNote (cleanMessageText m.text) = true) :
    processMessageRequest env oracle m = [] := by
  simp [processMessageRequest, h]

/-- The scenario event `{channel: "C1", text: "side note: ignore me", thread:
none}` produces no effect, through `c9_side_note_opt_out`. -/
theorem c9_witness :
    processMessageRequest ⟨some "C1", some "tok", some "key", none⟩
      ⟨fun _ => .error "na", fun _ _ _ => .ok ⟨"r", none⟩, "2.0", .ok ()⟩
      ⟨"C1", some "U1", some "side note: ignore me", "1.0", none, none, none, none, none⟩
      = [] :=
  c9_side_note_opt_out ⟨some "C1", some "tok", some "key", none⟩
    ⟨fun _ => .error "na", fun _ _ _ => .ok ⟨"r", none⟩, "2.0", .ok ()⟩
    ⟨"C1", some "U1", some "side note: ignore me", "1.0", none, none, none, none, none⟩
    (by decide)

/-! ## C10: generic-path admission of unmentioned thread replies -/

/-- C10: in the generic message path, a non-bot, non-mention thread reply in
an admitted channel is handed to `processMessageRequest` exactly when the
admission-time limit-50 history fetch returns at least one message carrying a
truthy `bot_id` (any bot); when that fetch returns no bot message, or when it
throws, the handler does nothing for this turn. -/
theorem c10_thread_admission (env : Env) (oracle : Oracle) (m : SlackMessage)
    (h1 : truthyOptStr m.bot_id = false)
    (h2 : subtypeBlocks m = false)
    (h3 : truthyOptStr m.bot_profile = false)
    (h4 : (m.user == some "USLACKBOT") = false)
    (h5 : isDMChannel m.channel = false)
    (h6 : (truthyOptStr env.monitoredChannel && (env.monitoredChannel != some m.channel))
      = false)
    (h7 : jsIncludes m.text ("<@" ++ botUserId env ++ ">") = false)
    (h8 : isThreadReply m = true) :
    (∀ e, oracle.fetchReplies ⟨m.channel, jsOrStr m.thread_ts "", 50⟩ = .error e →
      appMessageHandler env oracle m = [])
    ∧ (∀ h, oracle.fetchReplies ⟨m.channel, jsOrStr m.thread_ts "", 50⟩ = .ok h →
      (h.any fun msg => truthyOptStr msg.bot_id) = true →
      appMessageHandler env oracle m = processMessageRequest env oracle m)
    ∧ (∀ h, oracle.fetchReplies ⟨m.channel, jsOrStr m.thread_ts "", 50⟩ = .ok h →
      (h.any fun msg => truthyOptStr msg.bot_id) = false →
      appMessageHandler env oracle m = []) := by
  refine ⟨?_, ?_, ?_⟩
  · intro e hf
    simp [appMessageHandler, h1, h2, h3, h4, h5, h6, h7, h8, hf]
  · intro h hf hb
    simp [appMessageHandler, h1, h2, h3, h4, h5, h6, h7, h8, hf, hb]
  · intro h hf hb
    simp [appMessageHandler, h1, h2, h3, h4, h5, h6, h7, h8, hf, hb]

/-- A thread reply without a mention, in the monitored channel, whose
admission-time fetch finds a prior bot message, is admitted and processed,
through `c10_thread_admission`. -/
theorem c10_witness :
    appMessageHandler ⟨some "C1", some "tok", some "key", none⟩
      ⟨fun _ => .ok [⟨"C1", none, some "a", "101.0", some "100.0", some "B07",
          none, none, none⟩],
        fun _ _ _ => .ok ⟨"r", none⟩, "121.0", .ok ()⟩
      ⟨"C1", some "U2", some "ok cool", "120.0", some "100.0", none, none, none, none⟩
      = processMessageRequest ⟨some "C1", some "tok", some "key", none⟩
        ⟨fun _ => .ok [⟨"C1", none, some "a", "101.0", some "100.0", some "B07",
            none, none, none⟩],
          fun _ _ _ => .ok ⟨"r", none⟩, "121.0", .ok ()⟩
        ⟨"C1", some "U2", some "ok cool", "120.0", some "100.0", none, none, none, none⟩ :=
  (c10_thread_admission ⟨some "C1", some "tok", some "key", none⟩
      ⟨fun _ => .ok [⟨"C1", none, some "a", "101.0", some "100.0", some "B07",
          none, none, none⟩],
        fun _ _ _ => .ok ⟨"r", none⟩, "121.0", .ok ()⟩
      ⟨"C1", some "U2", some "ok cool", "120.0", some "100.0", none, none, none, none⟩
      (by decide) (by decide) (by decide) (by decide) (by decide) (by decide)
      (by decide) (by decide)).2.1
    [⟨"C1", none, some "a", "101.0", some "100.0", some "B07", none, none, none⟩]
    rfl (by decide)

/-! ## C1: thread continuity -/

/-- Decoding the payload the encoder builds for a present id recovers it. -/
theorem embeddedId_create_some (txt th X : String) :
    embeddedId (createMessageWithConversationId txt (some X) th) = some X := by
  simp only [embeddedId, createMessageWithConversationId, jsTemplateOpt]
  exact extractFromBlocks_conv X [] "section" (some ⟨"mrkdwn", txt⟩)

/-- The id embedded in the composed reply is the backend's id when truthy and
the located id `I` otherwise. -/
theorem embeddedId_create_jsOr (txt th : String) (a : Option String) (I : String) :
    embeddedId (createMessageWithConversationId txt (jsOrOpt a (some I)) th)
      = some (jsOrStr a I) := by
  cases a with
  | none =>
    rw [show jsOrOpt none (some I) = some I from rfl]
    rw [embeddedId_create_some]
    rfl
  | some s =>
    cases hs : strTruthy s with
    | true =>
      have h1 : jsOrOpt (some s) (some I) = some s := by
        simp [jsOrOpt, truthyOptStr, hs]
      rw [h1, embeddedId_create_some]
      simp [jsOrStr, hs]
    | false =>
      have h1 : jsOrOpt (some s) (some I) = some I := by
        simp [jsOrOpt, truthyOptStr, hs]
      rw [h1, embeddedId_create_some]
      simp [jsOrStr, hs]

/-- C1: continuity invariant.  For a processed thread reply whose successful
history fetch finds some bot-authored message embedding a truthy id and in
which every truthy id embedded by a bot-authored message is `I` (the thread's
established conversation id), the composed outbound reply embeds `I` — unless
the backend response supplies a truthy id, in which case that id is embedded
instead (`jsOrStr resp.conversation_id I`). -/
theorem c1_thread_continuity (env : Env) (oracle : Oracle) (m : SlackMessage)
    (history : List SlackMessage) (resp : BackendResponse) (I : String)
    (hside : isSideNote (cleanMessageText m.text) = false)
    (hbear : truthyOptStr env.mattGptBearerToken = true)
    (hkey : truthyOptStr env.openrouterApiKey = true)
    (hthread : isThreadReply m = true)
    (hfetch : oracle.fetchReplies ⟨m.channel, jsOrStr m.thread_ts "", 50⟩ = .ok history)
    (hex : ∃ msg ∈ history, embedsTruthyId msg = true)
    (hall : ∀ msg ∈ history, truthyOptStr msg.bot_id = true →
      ∀ c, extractConversationId msg = some c → strTruthy c = true → c = I)
    (hclient : ∀ t ctx, oracle.client t ctx 1 = .ok resp) :
    (∃ ok, Effect.chatUpdate m.channel oracle.thinkingTs
        (createMessageWithConversationId resp.response
          (jsOrOpt resp.conversation_id (some I)) (anchorOf m)) ok
      ∈ processMessageRequest env oracle m)
    ∧ embeddedId (createMessageWithConversationId resp.response
        (jsOrOpt resp.conversation_id (some I)) (anchorOf m))
      = some (jsOrStr resp.conversation_id I) := by
  have hloc : locatedIdOf oracle m = some I := by
    have hscan : scanForConvId history.reverse = some I := by
      apply scanForConvId_all history.reverse I
      · obtain ⟨msg, hm, hT⟩ := hex
        exact ⟨msg, List.mem_reverse.mpr hm, hT⟩
      · intro msg hm
        exact hall msg (List.mem_reverse.mp hm)
    simp [locatedIdOf, hthread, locateConversation, hfetch, hscan]
  have hcall : (callMattGPTWithRetry
      (oracle.client (cleanMessageText m.text) (apiContextOf oracle m)) 3).1
      = .success resp := by
    simp [callMattGPTWithRetry, retryAux, hclient]
  refine ⟨?_, embeddedId_create_jsOr resp.response (anchorOf m) resp.conversation_id I⟩
  cases hupd : oracle.updateResult with
  | ok u =>
    refine ⟨true, ?_⟩
    simp [processMessageRequest, hside, hbear, hkey, hcall, hupd, hloc]
  | error e =>
    refine ⟨false, ?_⟩
    simp [processMessageRequest, hside, hbear, hkey, hcall, hupd, hloc]

/-- Concrete thread history for exercising continuity: a human root message
and a bot reply embedding `abc-123`. -/
def c1History : List SlackMessage :=
  [⟨"C1", some "U1", some "q", "100.0", some "100.0", none, none, none, none⟩,
   ⟨"C1", none, some "a", "101.0", some "100.0", some "B07", none, none,
     some [⟨"section", some "conv_abc-123", some ⟨"mrkdwn", "a"⟩⟩]⟩]

def c1Env : Env := ⟨some "C1", some "tok", some "key", none⟩

def c1Oracle : Oracle :=
  ⟨fun _ => .ok c1History, fun _ _ _ => .ok ⟨"sure", none⟩, "121.0", .ok ()⟩

def c1Msg : SlackMessage :=
  ⟨"C1", some "U2", some "ok cool", "120.0", some "100.0", none, none, none, none⟩

/-- A thread reply over `c1History` (established id `abc-123`, backend
supplying none): the composed reply embeds `abc-123`, through
`c1_thread_continuity`. -/
theorem c1_witness :
    (∃ ok, Effect.chatUpdate "C1" "121.0"
        (createMessageWithConversationId "sure" (jsOrOpt none (some "abc-123")) "100.0") ok
      ∈ processMessageRequest c1Env c1Oracle c1Msg)
    ∧ embeddedId (createMessageWithConversationId "sure"
        (jsOrOpt none (some "abc-123")) "100.0")
      = some (jsOrStr none "abc-123") :=
  c1_thread_continuity c1Env c1Oracle c1Msg c1History ⟨"sure", none⟩ "abc-123"
    (by decide) (by decide) (by decide) (by decide) rfl (by decide)
    (by
      intro msg hm hb c hc hs
      fin_cases hm
      · exact absurd hb (by decide)
      · have hc2 : (some "abc-123" : Option String) = some c := hc
        injection hc2 with h
        exact h.symm)
    (fun _ _ => rfl)

/-! ## C2: id resolution on the success path -/

/-- Decoding the payload composed with a `null` conversation id yields the
literal string `null`: the block id is `conv_null`. -/
theorem embeddedId_create_none (txt th : String) :
    embeddedId (createMessageWithConversationId txt none th) = some "null" := by
  simp only [embeddedId, createMessageWithConversationId, jsTemplateOpt]
  exact extractFromBlocks_conv "null" [] "section" (some ⟨"mrkdwn", txt⟩)

def c2Env : Env := ⟨some "C1", some "tok", some "key", none⟩

def c2Oracle : Oracle :=
  ⟨fun _ => .error "na", fun _ _ _ => .ok ⟨"hi!", none⟩, "101.1", .ok ()⟩

/-- First fresh conversation: a mention in the monitored channel, no thread,
backend response carrying no conversation id. -/
def c2EventA : SlackMessage :=
  ⟨"C1", some "U1", some "<@U09BR46BEV8> hello", "100.1", none, none, none, none, none⟩

/-- A second, distinct fresh conversation in the same deployment. -/
def c2EventB : SlackMessage :=
  ⟨"C1", some "U2", some "<@U09BR46BEV8> hola", "200.1", none, none, none, none, none⟩

/-- Counterexample to C2 as stated: in two distinct new conversations where
neither the backend response nor the thread history supplies an id, the
composed replies both embed the same literal string `null` — no fresh id is
minted (`uuidv4` is imported but never called), `null` is not a valid
UUID-class ConversationId, and the two conversations do not receive distinct
ids as freshness would require. -/
theorem c2_counterexample :
    (composedPayloads (appMentionHandler c2Env c2Oracle c2EventA)).map embeddedId
      = [some "null"]
    ∧ (composedPayloads (appMentionHandler c2Env c2Oracle c2EventB)).map embeddedId
      = [some "null"]
    ∧ c2EventA ≠ c2EventB := by
  refine ⟨by decide, by decide, by decide⟩

/-- C2 amended: on a successful backend call the composed reply's id is
resolved as `backendSuppliedId || locatedId` — the backend's id when truthy,
otherwise the id located in thread history; there is no freshly-minted
fallback, and when both are absent the reply is still sent but embeds the
template-stringified `null` (block id `conv_null`). -/
theorem c2_resolution (env : Env) (oracle : Oracle) (m : SlackMessage)
    (resp : BackendResponse)
    (hside : isSideNote (cleanMessageText m.text) = false)
    (hbear : truthyOptStr env.mattGptBearerToken = true)
    (hkey : truthyOptStr env.openrouterApiKey = true)
    (hclient : ∀ t ctx, oracle.client t ctx 1 = .ok resp) :
    composedPayloads (processMessageRequest env oracle m)
      = [createMessageWithConversationId resp.response
          (jsOrOpt resp.conversation_id (locatedIdOf oracle m)) (anchorOf m)]
    ∧ (jsOrOpt resp.conversation_id (locatedIdOf oracle m) = none →
      embeddedId (createMessageWithConversationId resp.response
        (jsOrOpt resp.conversation_id (locatedIdOf oracle m)) (anchorOf m))
        = some "null") := by
  have hcall : (callMattGPTWithRetry
      (oracle.client (cleanMessageText m.text) (apiContextOf oracle m)) 3).1
      = .success resp := by
    simp [callMattGPTWithRetry, retryAux, hclient]
  constructor
  · cases hupd : oracle.updateResult with
    | ok u =>
      simp [composedPayloads, processMessageRequest, hside, hbear, hkey, hcall, hupd]
    | error e =>
      simp [composedPayloads, processMessageRequest, hside, hbear, hkey, hcall, hupd]
  · intro hnone
    rw [hnone]
    exact embeddedId_create_none resp.response (anchorOf m)

/-- A new conversation with no backend-supplied id: the single composed reply
embeds the literal `null`, through `c2_resolution`. -/
theorem c2_witness :
    composedPayloads (processMessageRequest c2Env c2Oracle
        (mockMessageOf c2EventA))
      = [createMessageWithConversationId "hi!"
          (jsOrOpt none (locatedIdOf c2Oracle (mockMessageOf c2EventA))) "100.1"]
    ∧ (jsOrOpt none (locatedIdOf c2Oracle (mockMessageOf c2EventA)) = none →
      embeddedId (createMessageWithConversationId "hi!"
        (jsOrOpt none (locatedIdOf c2Oracle (mockMessageOf c2EventA))) "100.1")
        = some "null") :=
  c2_resolution c2Env c2Oracle (mockMessageOf c2EventA) ⟨"hi!", none⟩
    (by decide) (by decide) (by decide) (fun _ _ => rfl)

/-! ## C6: placeholder resolution -/

def c6Env : Env := ⟨some "C1", some "tok", some "key", none⟩

/-- An oracle whose backend fails every attempt. -/
def c6Oracle : Oracle :=
  ⟨fun _ => .error "na", fun _ _ _ => .error "ECONNREFUSED", "51.0", .ok ()⟩

def c6Msg : SlackMessage :=
  ⟨"C1", some "U1", some "hello again", "50.0", none, none, none, none, none⟩

/-- Counterexample to C6 as stated: when the backend fails after the
placeholder has been posted, the turn's trace posts the placeholder and a
separate apology but never edits or deletes the placeholder message — the
exit path leaves it unresolved in the thread. -/
theorem c6_counterexample :
    placeholderPostedIn (processMessageRequest c6Env c6Oracle c6Msg) = true
    ∧ placeholderResolvedIn (processMessageRequest c6Env c6Oracle c6Msg)
        c6Oracle.thinkingTs = false := by
  refine ⟨by decide, by decide⟩

/-- C6 amended: on the success path (backend success and successful
`chat.update`) the placeholder is posted and then resolved by the in-place
edit; but on any later failure — backend retry exhaustion or a failed
`chat.update` edit — the placeholder is posted, a classified apology is
posted as a separate threaded message, and the placeholder is neither
replaced nor deleted. -/
theorem c6_placeholder_paths (env : Env) (oracle : Oracle) (m : SlackMessage)
    (hside : isSideNote (cleanMessageText m.text) = false)
    (hbear : truthyOptStr env.mattGptBearerToken = true)
    (hkey : truthyOptStr env.openrouterApiKey = true) :
    (∀ resp : BackendResponse, (∀ t ctx, oracle.client t ctx 1 = .ok resp) →
      oracle.updateResult = .ok () →
      placeholderPostedIn (processMessageRequest env oracle m) = true
      ∧ placeholderResolvedIn (processMessageRequest env oracle m) oracle.thinkingTs = true)
    ∧ (∀ e : String, (∀ t ctx n, oracle.client t ctx n = .error e) →
      placeholderPostedIn (processMessageRequest env oracle m) = true
      ∧ placeholderResolvedIn (processMessageRequest env oracle m) oracle.thinkingTs = false
      ∧ Effect.say (classifyErrorMessage ("Matt-GPT API failed after 3 attempts: " ++ e))
          (some (anchorOf m)) ∈ processMessageRequest env oracle m)
    ∧ (∀ (resp : BackendResponse) (e : String),
      (∀ t ctx, oracle.client t ctx 1 = .ok resp) →
      oracle.updateResult = .error e →
      placeholderPostedIn (processMessageRequest env oracle m) = true
      ∧ placeholderResolvedIn (processMessageRequest env oracle m) oracle.thinkingTs = false
      ∧ Effect.say (classifyErrorMessage e) (some (anchorOf m))
          ∈ processMessageRequest env oracle m) := by
  refine ⟨?_, ?_, ?_⟩
  · intro resp hclient hupd
    have hcall : (callMattGPTWithRetry
        (oracle.client (cleanMessageText m.text) (apiContextOf oracle m)) 3).1
        = .success resp := by
      simp [callMattGPTWithRetry, retryAux, hclient]
    constructor
    · simp [processMessageRequest, hside, hbear, hkey, hcall, hupd,
        placeholderPostedIn]
    · simp [processMessageRequest, hside, hbear, hkey, hcall, hupd,
        placeholderResolvedIn]
  · intro e hclient
    have hmsg : ("Matt-GPT API failed after " ++ toString (3 : Nat) ++ " attempts: " ++ e)
        = ("Matt-GPT API failed after 3 attempts: " ++ e) := by
      rw [show ("Matt-GPT API failed after " ++ toString (3 : Nat) ++ " attempts: ")
        = "Matt-GPT API failed after 3 attempts: " from rfl]
    have hcall : (callMattGPTWithRetry
        (oracle.client (cleanMessageText m.text) (apiContextOf oracle m)) 3).1
        = .failure ("Matt-GPT API failed after 3 attempts: " ++ e) := by
      simp [callMattGPTWithRetry, retryAux, hclient, hmsg]
    refine ⟨?_, ?_, ?_⟩
    · simp [processMessageRequest, hside, hbear, hkey, hcall, placeholderPostedIn]
    · simp [processMessageRequest, hside, hbear, hkey, hcall, placeholderResolvedIn]
    · simp [processMessageRequest, hside, hbear, hkey, hcall]
  · intro resp e hclient hupd
    have hcall : (callMattGPTWithRetry
        (oracle.client (cleanMessageText m.text) (apiContextOf oracle m)) 3).1
        = .success resp := by
      simp [callMattGPTWithRetry, retryAux, hclient]
    refine ⟨?_, ?_, ?_⟩
    · simp [processMessageRequest, hside, hbear, hkey, hcall, hupd,
        placeholderPostedIn]
    · simp [processMessageRequest, hside, hbear, hkey, hcall, hupd,
        placeholderResolvedIn]
    · simp [processMessageRequest, hside, hbear, hkey, hcall, hupd]

/-- A backend that always fails leaves the placeholder posted and unresolved
while the apology goes out as a separate message, through
`c6_placeholder_paths`. -/
theorem c6_witness :
    placeholderPostedIn (processMessageRequest c6Env c6Oracle c6Msg) = true
    ∧ placeholderResolvedIn (processMessageRequest c6Env c6Oracle c6Msg)
        c6Oracle.thinkingTs = false
    ∧ Effect.say (classifyErrorMessage "Matt-GPT API failed after 3 attempts: ECONNREFUSED")
        (some (anchorOf c6Msg)) ∈ processMessageRequest c6Env c6Oracle c6Msg :=
  (c6_placeholder_paths c6Env c6Oracle c6Msg (by decide) (by decide) (by decide)).2.1
    "ECONNREFUSED" (fun _ _ _ => rfl)

/-! ## C7: explicit-mention path -/

def c7Env : Env := ⟨some "C1", some "tok", some "key", none⟩

def c7Oracle : Oracle :=
  ⟨fun _ => .error "na", fun _ _ _ => .ok ⟨"r", none⟩, "6.0", .ok ()⟩

/-- An `app_mention` event in the monitored channel whose stripped text is a
side-note marker. -/
def c7SideNoteEvent : SlackMessage :=
  ⟨"C1", some "U1", some "<@U09BR46BEV8> side note: hi", "5.0", none, none, none,
    none, none⟩

/-- Counterexample to C7 as stated: an `app_mention` event in the monitored
channel whose mention-stripped text starts with a side-note marker produces
no effect at all — the mention path neither calls the backend nor posts any
reply, so it does not Respond for every such event. -/
theorem c7_counterexample :
    appMentionHandler c7Env c7Oracle c7SideNoteEvent = [] := by
  decide

/-- C7 amended: for every `app_mention` event whose channel matches the
monitored channel (or any channel when none is configured), provided the
backend configuration is present and the mention-stripped text is not a
side-note marker, the handler proceeds — regardless of the event's thread
state — to post the placeholder, call the backend, and issue at least one
further effect (the composed reply or the apology). -/
theorem c7_mention_path (env : Env) (oracle : Oracle) (ev : SlackMessage)
    (hchan : (truthyOptStr env.monitoredChannel
      && (env.monitoredChannel != some ev.channel)) = false)
    (hside : isSideNote (cleanMessageText ev.text) = false)
    (hbear : truthyOptStr env.mattGptBearerToken = true)
    (hkey : truthyOptStr env.openrouterApiKey = true) :
    ∃ rest, appMentionHandler env oracle ev =
        Effect.say thinkingText (some (anchorOf (mockMessageOf ev)))
          :: Effect.backendCall (cleanMessageText ev.text)
              (apiContextOf oracle (mockMessageOf ev)) :: rest
      ∧ rest ≠ [] := by
  have hmock : cleanMessageText (mockMessageOf ev).text = cleanMessageText ev.text := rfl
  have hh : appMentionHandler env oracle ev
      = processMessageRequest env oracle (mockMessageOf ev) := by
    simp [appMentionHandler, hchan]
  rw [hh]
  cases hcall : (callMattGPTWithRetry
      (oracle.client (cleanMessageText ev.text) (apiContextOf oracle (mockMessageOf ev))) 3).1 with
  | success resp =>
    cases hupd : oracle.updateResult with
    | ok u =>
      refine ⟨[.chatUpdate (mockMessageOf ev).channel oracle.thinkingTs
        (createMessageWithConversationId resp.response
          (jsOrOpt resp.conversation_id (locatedIdOf oracle (mockMessageOf ev)))
          (anchorOf (mockMessageOf ev))) true], ?_, by simp⟩
      simp [processMessageRequest, hmock, hside, hbear, hkey, hcall, hupd]
    | error e =>
      refine ⟨[.chatUpdate (mockMessageOf ev).channel oracle.thinkingTs
        (createMessageWithConversationId resp.response
          (jsOrOpt resp.conversation_id (locatedIdOf oracle (mockMessageOf ev)))
          (anchorOf (mockMessageOf ev))) false,
        .say (classifyErrorMessage e) (some (anchorOf (mockMessageOf ev)))], ?_, by simp⟩
      simp [processMessageRequest, hmock, hside, hbear, hkey, hcall, hupd]
  | failure msg =>
    refine ⟨[.say (classifyErrorMessage msg) (some (anchorOf (mockMessageOf ev)))],
      ?_, by simp⟩
    simp [processMessageRequest, hmock, hside, hbear, hkey, hcall]
  | fellThrough =>
    refine ⟨[.say (classifyErrorMessage "Cannot read properties of undefined")
      (some (anchorOf (mockMessageOf ev)))], ?_, by simp⟩
    simp [processMessageRequest, hmock, hside, hbear, hkey, hcall]

/-- A plain mention in the monitored channel reaches the backend and posts a
reply regardless of thread state, through `c7_mention_path`. -/
theorem c7_witness :
    ∃ rest, appMentionHandler c7Env c7Oracle
        ⟨"C1", some "U1", some "<@U09BR46BEV8> hello", "5.0", none, none, none, none, none⟩ =
        Effect.say thinkingText (some (anchorOf (mockMessageOf
          ⟨"C1", some "U1", some "<@U09BR46BEV8> hello", "5.0", none, none, none, none, none⟩)))
          :: Effect.backendCall (cleanMessageText (some "<@U09BR46BEV8> hello"))
              (apiContextOf c7Oracle (mockMessageOf
                ⟨"C1", some "U1", some "<@U09BR46BEV8> hello", "5.0", none, none, none, none, none⟩))
          :: rest
      ∧ rest ≠ [] :=
  c7_mention_path c7Env c7Oracle
    ⟨"C1", some "U1", some "<@U09BR46BEV8> hello", "5.0", none, none, none, none, none⟩
    (by decide) (by decide) (by decide) (by decide)

/-! ## C8: DM and group-DM handling -/

def c8Env : Env := ⟨some "C1", some "tok", some "key", none⟩

def c8Oracle : Oracle :=
  ⟨fun _ => .error "na", fun _ _ _ => .ok ⟨"r", none⟩, "11.0", .ok ()⟩

/-- A non-bot message arriving from a group-DM context (`G` channel) while
`C1` is monitored. -/
def c8GroupDMMsg : SlackMessage :=
  ⟨"G0999", some "U1", some "hi", "10.0", none, none, none, none, none⟩

/-- Counterexample to C8 as stated: a non-bot message from a group-DM
(multi-party ephemeral) context with a monitored channel configured produces
no effect at all — no static pointer message is emitted (the code silently
ignores `G` channels), although the backend is indeed never contacted. -/
theorem c8_counterexample :
    appMessageHandler c8Env c8Oracle c8GroupDMMsg = [] := by
  decide

/-- C8 amended: with a monitored channel configured, a non-bot message from a
1:1 DM (`D` channel) is answered with the static pointer message to the
monitored channel and nothing else — the backend is never contacted; a
non-bot message from a group-DM/private (`G`) channel other than the
monitored channel is silently dropped: no message at all and no backend
contact. -/
theorem c8_redirect_rule (env : Env) (oracle : Oracle) (m : SlackMessage)
    (h1 : truthyOptStr m.bot_id = false)
    (h2 : subtypeBlocks m = false)
    (h3 : truthyOptStr m.bot_profile = false)
    (h4 : (m.user == some "USLACKBOT") = false)
    (hmon : truthyOptStr env.monitoredChannel = true) :
    (isDMChannel m.channel = true →
      appMessageHandler env oracle m
        = [.say (dmRedirectText (jsOrStr env.monitoredChannel "")) none])
    ∧ (isDMChannel m.channel = false →
      isProbablyGroupDMOrPrivateChannel m.channel = true →
      (env.monitoredChannel != some m.channel) = true →
      appMessageHandler env oracle m = []) := by
  constructor
  · intro hdm
    simp [appMessageHandler, h1, h2, h3, h4, hdm, hmon]
  · intro hdm hg hne
    simp [appMessageHandler, h1, h2, h3, h4, hdm, hg, hne, hmon]

/-- A DM gets the pointer message and nothing else, through
`c8_redirect_rule`. -/
theorem c8_witness :
    appMessageHandler c8Env c8Oracle
      ⟨"D0123", some "U1", some "hi", "10.0", none, none, none, none, none⟩
      = [.say (dmRedirectText (jsOrStr c8Env.monitoredChannel "")) none] :=
  (c8_redirect_rule c8Env c8Oracle
    ⟨"D0123", some "U1", some "hi", "10.0", none, none, none, none, none⟩
    (by decide) (by decide) (by decide) (by decide) (by decide)).1 (by decide)

end MattGPT
